import Mathlib

/-!
Shallow embedding of the stangerstown matchmaking / chat engine.

Source of truth: `src/src/hooks/useHumanChat.ts` (the hook owning the
matchmaker, the peer transport manager, the protocol dispatcher and the
session state machine) and the data model in `src/src/types.ts`.

The hook is single-threaded and callback driven.  React state variables
and refs become fields of `HState`; every transport / timer callback and
every user action becomes a pure function `HState → HState` (paired with
the list of wire frames it sends, where the claims need the outputs).
Scheduled callbacks (the matchmaking jitter `setTimeout` and the 5 s
connection-attempt timeout) are modelled as pending slots in the state
(`pendingJitter`, `pendingTimeout`) plus explicit firing functions, which
matches the source where firing a timer is just another callback run by
the event loop.  `Math.random()` is made explicit as a rational draw
`r ∈ [0,1)` feeding `Math.floor(r * n)`.  JavaScript truthiness of the
optional wire fields (`payload.id || ...`, `expiryDuration ? ... : ...`)
is modelled exactly: `undefined`, `""` and `0` are falsy.
-/

/-- `ChatMode` from src/src/types.ts. -/
inductive ChatMode
  | IDLE
  | SEARCHING
  | WAITING
  | CONNECTED
  | DISCONNECTED
  | ERROR
  deriving DecidableEq, Repr

/-- `MessageType` from src/src/types.ts: text, image or audio. -/
inductive MessageType
  | text
  | image
  | audio
  deriving DecidableEq, Repr

/-- The `sender` field of a `Message`: 'me' | 'stranger' | 'system'. -/
inductive Sender
  | me
  | stranger
  | system
  deriving DecidableEq, Repr

/-- The delivery `status` field of a `Message`: 'sent' | 'seen'. -/
inductive DeliveryStatus
  | sent
  | seen
  deriving DecidableEq, Repr

/-- `UserProfile` from src/src/types.ts. -/
structure UserProfile where
  uid : Option String := none
  username : String
  age : String := ""
  gender : String := ""
  interests : List String := []
  location : String := ""
  deriving DecidableEq, Repr

/-- `Reaction` from src/src/types.ts. -/
structure Reaction where
  emoji : String
  sender : Sender
  deriving DecidableEq, Repr

/-- `ReplyInfo` from src/src/types.ts. -/
structure ReplyInfo where
  id : String
  text : String
  senderName : String
  deriving DecidableEq, Repr

/-- `Message` from src/src/types.ts.  Optional TS fields are `Option`s
defaulting to `none` (i.e. `undefined`). -/
structure Message where
  id : String
  text : Option String := none
  fileData : Option String := none
  type : MessageType
  sender : Sender
  senderName : Option String := none
  senderPeerId : Option String := none
  senderProfile : Option UserProfile := none
  timestamp : Nat
  isVanish : Option Bool := none
  reactions : Option (List Reaction) := none
  isEdited : Option Bool := none
  status : Option DeliveryStatus := none
  replyTo : Option ReplyInfo := none
  expiryDuration : Option Nat := none
  expiresAt : Option Nat := none
  deriving DecidableEq, Repr

/-- The `type` discriminator of a wire frame (`PeerData.type`). -/
inductive FrameType
  | message
  | typing
  | recording
  | disconnect
  | profile
  | profile_update
  | vanish_mode
  | reaction
  | edit_message
  | friend_request
  | friend_accept
  | seen
  deriving DecidableEq, Repr

/-- The untyped `payload: any` of a wire frame.  The protocol puts a
string (text / base64), a boolean (indicators, vanish mode) or a
`UserProfile` there. -/
inductive PVal
  | str (s : String)
  | bool (b : Bool)
  | prof (p : UserProfile)
  deriving DecidableEq, Repr

/-- `PeerData` from src/src/types.ts: the wire frame shape. -/
structure PeerData where
  type : FrameType
  payload : Option PVal := none
  dataType : Option MessageType := none
  messageId : Option String := none
  id : Option String := none
  replyTo : Option ReplyInfo := none
  expiryDuration : Option Nat := none
  isVanish : Option Bool := none
  deriving DecidableEq, Repr

/-- Presence record status.  `types.ts` declares waiting | paired | busy;
the hook additionally publishes `idle`, so the runtime value set includes
it. -/
inductive PresenceStatus
  | waiting
  | paired
  | busy
  | idle
  deriving DecidableEq, Repr

/-- `PresenceState` from src/src/types.ts. -/
structure PresenceState where
  peerId : String
  status : PresenceStatus
  timestamp : Nat
  profile : Option UserProfile := none
  deriving DecidableEq, Repr

/-- `RecentPeer` from src/src/types.ts. -/
structure RecentPeer where
  id : String
  peerId : String
  profile : UserProfile
  metAt : Nat
  deriving DecidableEq, Repr

/-- `Friend` from src/src/types.ts. -/
structure Friend where
  id : String
  profile : UserProfile
  addedAt : Nat
  lastSeen : Option Nat := none
  deriving DecidableEq, Repr

/-- `FriendRequest` from src/src/types.ts. -/
structure FriendRequest where
  peerId : String
  profile : UserProfile
  deriving DecidableEq, Repr

/-- A PeerJS `DataConnection` as far as this logic observes it: the
remote peer id and whether the transport has reached open. -/
structure Conn where
  peer : String
  isOpen : Bool
  deriving DecidableEq, Repr

/-- `ConnectionMetadata` from src/src/types.ts: dial-time intent tag. -/
inductive ConnMeta
  | random
  | direct
  deriving DecidableEq, Repr

/-- Typing/recording indicator kind for `DirectStatusEvent`. -/
inductive IndicatorKind
  | typing
  | recording
  deriving DecidableEq, Repr

/-- The state owned by `useHumanChat`: React `useState` variables and
`useRef` cells, plus the two pending timer slots (the matchmaking jitter
and the connection-attempt timeout) and bookkeeping for observable
effects (`publishedStatus` is the last status sent via `channel.track`,
`closedLog` records every `conn.close()` call, newest first). -/
structure HState where
  myPeerId : Option String
  myProfile : Option UserProfile
  status : ChatMode
  messages : List Message
  partnerTyping : Bool
  partnerRecording : Bool
  partnerProfile : Option UserProfile
  remoteVanishMode : Option Bool
  partnerPeerId : Option String
  disconnectReason : Option String
  errorMsg : Option String
  incomingDirectMessage : Option (String × Message)
  incomingReaction : Option (String × String × String)
  incomingDirectStatus : Option (String × IndicatorKind × Bool)
  friends : List Friend
  friendRequests : List FriendRequest
  activeDirect : List String
  notification : Option String
  mainConn : Option Conn
  directConns : List (String × Conn)
  directProfiles : List (String × UserProfile)
  isMatchmaker : Bool
  failedPeers : List String
  pendingTimeout : Option String
  pendingJitter : Option String
  recentPeers : List RecentPeer
  publishedStatus : Option String
  closedLog : List String
  deriving DecidableEq, Repr

/-- JS truthiness of an optional string field: `undefined` and `""` are
falsy. -/
def jsTruthyStr : Option String → Bool
  | none => false
  | some s => s != ""

/-- JS `x || d` on an optional string: falls back on `undefined` and on
`""` (both falsy). -/
def jsOrStr (x : Option String) (d : String) : String :=
  match x with
  | none => d
  | some s => if s == "" then d else s

/-- JS truthiness of an optional number field: `undefined` and `0` are
falsy. -/
def jsTruthyNat : Option Nat → Bool
  | none => false
  | some n => n != 0

/-- JS `conn?.open` truthiness: a missing connection reads as falsy. -/
def jsOpen : Option Conn → Bool
  | none => false
  | some c => c.isOpen

/-- `Math.floor(Math.random() * n)` with the random draw `r` made an
explicit rational in `[0,1)`. -/
def selectIndex (r : ℚ) (n : ℕ) : ℕ :=
  (Int.floor (r * n)).toNat

/-- Extract the string payload of a frame (`payload: any` holding text
or base64 on `message` / `reaction` / `edit_message` frames). -/
def asStr : Option PVal → Option String
  | some (.str s) => some s
  | _ => none

/-- Extract the boolean payload of a frame. -/
def asBool : Option PVal → Option Bool
  | some (.bool b) => some b
  | _ => none

/-- Extract the profile payload of a frame. -/
def asProf : Option PVal → Option UserProfile
  | some (.prof p) => some p
  | _ => none

/-- JS `Map.prototype.set`: replace in place if the key is present
(keeping insertion order), otherwise append. -/
def listSet {α : Type} (l : List (String × α)) (k : String) (v : α) : List (String × α) :=
  if l.any (fun p => p.1 == k) then
    l.map (fun p => if p.1 == k then (k, v) else p)
  else
    l ++ [(k, v)]

/-- JS `Map.prototype.delete`. -/
def listDel {α : Type} (l : List (String × α)) (k : String) : List (String × α) :=
  l.filter (fun p => p.1 != k)

/-- JS `Map.prototype.get`. -/
def listGet {α : Type} (l : List (String × α)) (k : String) : Option α :=
  (l.find? (fun p => p.1 == k)).map Prod.snd

/-- `addToRecentPeers` (useHumanChat.ts lines 100-120): deduplicate by
stable uid when both sides have a truthy uid, else by peer id; prepend
the new record; keep at most 50. -/
def addToRecentPeers (profile : UserProfile) (peerId : String) (now : Nat)
    (recents : List RecentPeer) : List RecentPeer :=
  let filtered := recents.filter (fun rp =>
    if jsTruthyStr rp.profile.uid && jsTruthyStr profile.uid then
      rp.profile.uid != profile.uid
    else
      rp.peerId != peerId)
  (({ id := jsOrStr profile.uid peerId, peerId := peerId, profile := profile,
      metAt := now } : RecentPeer) :: filtered).take 50

/-- `handleMainDisconnect` (useHumanChat.ts lines 490-501): record the
reason, force DISCONNECTED, clear partner state and the conversation,
drop the primary connection reference and the in-flight guard, publish
presence status idle. -/
def handleMainDisconnect (s : HState) (reason : String) : HState :=
  { s with
      disconnectReason := some reason,
      status := .DISCONNECTED,
      partnerProfile := none,
      partnerPeerId := none,
      remoteVanishMode := none,
      messages := [],
      mainConn := none,
      isMatchmaker := false,
      publishedStatus := some "idle" }

/-- `setupConnection` (useHumanChat.ts lines 296-308), the state part:
a random-intent connection becomes the primary connection unless one
already exists (then the new one is closed); a direct-intent connection
is stored in the secondary map (overwriting any entry for that peer) and
its peer id added to the active set.  The transport is not yet open at
this point. -/
def setupConnection (s : HState) (meta : ConnMeta) (connPeer : String) : HState :=
  match meta with
  | .random =>
    if s.mainConn.isSome then
      { s with closedLog := connPeer :: s.closedLog }
    else
      { s with mainConn := some { peer := connPeer, isOpen := false } }
  | .direct =>
    { s with
        directConns := listSet s.directConns connPeer { peer := connPeer, isOpen := false },
        activeDirect :=
          if s.activeDirect.contains connPeer then s.activeDirect
          else s.activeDirect ++ [connPeer] }

/-- `peer.on('connection')` (useHumanChat.ts lines 139-156): an inbound
connection tagged random is closed unless the session is SEARCHING or
WAITING and no primary connection exists; otherwise (and for any
direct-intent connection) it goes to `setupConnection`. -/
def peerOnConnection (s : HState) (meta : ConnMeta) (connPeer : String) : HState :=
  match meta with
  | .random =>
    if !(s.status == .SEARCHING) && !(s.status == .WAITING) then
      { s with closedLog := connPeer :: s.closedLog }
    else if s.mainConn.isSome then
      { s with closedLog := connPeer :: s.closedLog }
    else
      setupConnection s .random connPeer
  | .direct => setupConnection s .direct connPeer

/-- `conn.on('open')` (useHumanChat.ts lines 310-324).  On the primary
connection: cancel the pending attempt timeout, go CONNECTED, record the
partner peer id, clear the in-flight guard and the cooldown set, publish
paired.  On any connection: send our profile frame if we have one. -/
def connOnOpen (s : HState) (isMain : Bool) (connPeer : String) : HState × List PeerData :=
  let s1 :=
    if isMain then
      { s with
          pendingTimeout := none,
          status := .CONNECTED,
          partnerPeerId := some connPeer,
          isMatchmaker := false,
          failedPeers := [],
          publishedStatus := some "paired" }
    else s
  match s.myProfile with
  | some p => (s1, [{ type := .profile, payload := some (.prof p) }])
  | none => (s1, [])

/-- `conn.on('data')` (useHumanChat.ts lines 326-461): the protocol
dispatcher, keyed by the frame `type` and the connection role.  Returns
the new state and the frames sent back on the same connection. -/
def connOnData (s : HState) (isMain : Bool) (connPeer : String) (d : PeerData)
    (now : Nat) : HState × List PeerData :=
  match d.type with
  | .message =>
    let senderProfile := if !isMain then listGet s.directProfiles connPeer else none
    let expiresAt :=
      if jsTruthyNat d.expiryDuration then some (now + d.expiryDuration.getD 0) else none
    let newMsg : Message :=
      { id := jsOrStr d.id (Nat.repr now),
        text := if d.dataType == some .text then asStr d.payload else none,
        fileData := if d.dataType != some .text then asStr d.payload else none,
        sender := .stranger,
        timestamp := now,
        type := d.dataType.getD .text,
        reactions := some [],
        replyTo := d.replyTo,
        senderProfile := senderProfile,
        senderPeerId := some connPeer,
        expiryDuration := d.expiryDuration,
        expiresAt := expiresAt,
        isVanish := d.isVanish }
    if isMain then
      ( { s with messages := s.messages ++ [newMsg] },
        if jsTruthyStr d.id then [{ type := .seen, messageId := d.id }] else [] )
    else
      ( { s with incomingDirectMessage := some (connPeer, newMsg) }, [] )
  | .profile =>
    match asProf d.payload with
    | some p =>
      if isMain then
        ( { s with
              partnerProfile := some p,
              messages := s.messages ++
                [{ id := "sys-conn-" ++ Nat.repr now,
                   text := some ("Connected with " ++ p.username ++ "."),
                   sender := .system,
                   timestamp := now,
                   type := .text }],
              recentPeers := addToRecentPeers p connPeer now s.recentPeers },
          [] )
      else
        ( { s with directProfiles := listSet s.directProfiles connPeer p }, [] )
    | none => (s, [])
  | .typing =>
    if isMain then
      ({ s with partnerTyping := (asBool d.payload).getD false }, [])
    else
      ({ s with incomingDirectStatus := some (connPeer, .typing, (asBool d.payload).getD false) }, [])
  | .recording =>
    if isMain then
      ({ s with partnerRecording := (asBool d.payload).getD false }, [])
    else
      ({ s with incomingDirectStatus := some (connPeer, .recording, (asBool d.payload).getD false) }, [])
  | .disconnect =>
    if isMain then
      (handleMainDisconnect { s with closedLog := connPeer :: s.closedLog } "explicit", [])
    else (s, [])
  | .vanish_mode =>
    if isMain then
      ({ s with
          remoteVanishMode := asBool d.payload,
          notification := some
            (if (asBool d.payload).getD false then "Stranger turned on Vanish Mode"
             else "Stranger turned off Vanish Mode") }, [])
    else (s, [])
  | .reaction =>
    if isMain then
      ({ s with messages := s.messages.map (fun m =>
          if some m.id = d.messageId then
            { m with reactions := some ((m.reactions.getD []) ++
                [{ emoji := (asStr d.payload).getD "", sender := .stranger }]) }
          else m) }, [])
    else
      ({ s with incomingReaction := some (connPeer, d.messageId.getD "", (asStr d.payload).getD "") }, [])
  | .edit_message =>
    if isMain then
      ({ s with messages := s.messages.map (fun m =>
          if some m.id = d.messageId then
            { m with text := asStr d.payload, isEdited := some true }
          else m) }, [])
    else (s, [])
  | .friend_request =>
    match asProf d.payload with
    | some p =>
      if p.username != "" then
        ({ s with friendRequests :=
            if s.friendRequests.any (fun rq =>
                (jsTruthyStr rq.profile.uid && jsTruthyStr p.uid
                  && rq.profile.uid == p.uid)
                || rq.peerId == connPeer) then
              s.friendRequests
            else
              s.friendRequests ++ [{ peerId := connPeer, profile := p }] }, [])
      else (s, [])
    | none => (s, [])
  | .friend_accept =>
    match asProf d.payload with
    | some p =>
      if p.username != "" then
        ({ s with
            friends :=
              if s.friends.any (fun f =>
                  (jsTruthyStr f.profile.uid && jsTruthyStr p.uid
                    && f.profile.uid == p.uid)
                  || f.id == connPeer) then
                s.friends
              else
                s.friends ++ [{ id := connPeer, profile := p, addedAt := now,
                                lastSeen := some now }],
            notification := some (p.username ++ " accepted your friend request") }, [])
      else (s, [])
    | none => (s, [])
  | .seen =>
    if isMain then
      ({ s with messages := s.messages.map (fun m =>
          if some m.id = d.messageId then { m with status := some .seen } else m) }, [])
    else (s, [])
  | .profile_update => (s, [])

/-- `conn.on('close')` (useHumanChat.ts lines 463-476).  Primary while
CONNECTED: disconnect with reason network; primary while SEARCHING: just
release the guard and the reference (the armed attempt timeout is NOT
cancelled).  Secondary: remove the map entry, the cached profile and the
active-set entry. -/
def connOnClose (s : HState) (isMain : Bool) (connPeer : String) : HState :=
  if isMain then
    if s.status = .CONNECTED then
      handleMainDisconnect s "network"
    else if s.status = .SEARCHING then
      { s with isMatchmaker := false, mainConn := none }
    else s
  else
    { s with
        directConns := listDel s.directConns connPeer,
        directProfiles := listDel s.directProfiles connPeer,
        activeDirect := s.activeDirect.filter (fun q => q != connPeer) }

/-- `disconnect` (useHumanChat.ts lines 516-523): send a disconnect
frame and close the primary connection if present, run
`handleMainDisconnect('local_network')`, then set status IDLE. -/
def disconnect (s : HState) : HState × List PeerData :=
  match s.mainConn with
  | some c =>
    ( { handleMainDisconnect { s with closedLog := c.peer :: s.closedLog } "local_network"
          with status := .IDLE },
      [{ type := .disconnect }] )
  | none =>
    ({ handleMainDisconnect s "local_network" with status := .IDLE }, [])

/-- `connect` (useHumanChat.ts lines 505-514): no-op without a peer id;
otherwise go SEARCHING, clear the conversation and errors, publish
waiting. -/
def connectAction (s : HState) : HState :=
  match s.myPeerId with
  | none => s
  | some _ =>
    { s with
        status := .SEARCHING,
        messages := [],
        errorMsg := none,
        disconnectReason := none,
        partnerProfile := none,
        publishedStatus := some "waiting" }

/-- `sendMessage` (useHumanChat.ts lines 525-532): always append the
local Message (sender me, status sent); transmit the frame only when the
primary connection exists and is open. -/
def sendMessage (s : HState) (text : String) (replyTo : Option ReplyInfo)
    (isVanish : Option Bool) (now : Nat) : HState × List PeerData :=
  let mid := Nat.repr now
  let msg : Message :=
    { id := mid, text := some text, sender := .me, timestamp := now, type := .text,
      reactions := some [], status := some .sent, replyTo := replyTo, isVanish := isVanish }
  let s1 := { s with messages := s.messages ++ [msg] }
  if jsOpen s.mainConn then
    (s1, [{ type := .message, payload := some (.str text), dataType := some .text,
            id := some mid, replyTo := replyTo, isVanish := isVanish }])
  else (s1, [])

/-- `sendImage` (useHumanChat.ts lines 534-542). -/
def sendImage (s : HState) (base64 : String) (expiryDuration : Option Nat)
    (isVanish : Option Bool) (now : Nat) : HState × List PeerData :=
  let mid := Nat.repr now
  let expiresAt :=
    if jsTruthyNat expiryDuration then some (now + expiryDuration.getD 0) else none
  let msg : Message :=
    { id := mid, fileData := some base64, sender := .me, timestamp := now, type := .image,
      reactions := some [], status := some .sent, expiryDuration := expiryDuration,
      expiresAt := expiresAt, isVanish := isVanish }
  let s1 := { s with messages := s.messages ++ [msg] }
  if jsOpen s.mainConn then
    (s1, [{ type := .message, payload := some (.str base64), dataType := some .image,
            id := some mid, expiryDuration := expiryDuration, isVanish := isVanish }])
  else (s1, [])

/-- `sendAudio` (useHumanChat.ts lines 544-551). -/
def sendAudio (s : HState) (base64 : String) (isVanish : Option Bool) (now : Nat) :
    HState × List PeerData :=
  let mid := Nat.repr now
  let msg : Message :=
    { id := mid, fileData := some base64, sender := .me, timestamp := now, type := .audio,
      reactions := some [], status := some .sent, isVanish := isVanish }
  let s1 := { s with messages := s.messages ++ [msg] }
  if jsOpen s.mainConn then
    (s1, [{ type := .message, payload := some (.str base64), dataType := some .audio,
            id := some mid, isVanish := isVanish }])
  else (s1, [])

/-- Placeholder presence record for the (unreachable) out-of-bounds read
of `waiters[...]`; the selection index is always within bounds for a
random draw in `[0,1)`. -/
def dummyPresence : PresenceState :=
  { peerId := "", status := .waiting, timestamp := 0 }

/-- The selection half of `attemptMatch` (useHumanChat.ts lines
230-247): bail out unless we have a peer id, no attempt is in flight, no
primary connection exists and we are SEARCHING; filter the snapshot to
waiting records excluding self and the cooldown set; pick the target at
the random index and schedule the jittered dial (set the in-flight guard
and the pending jitter callback). -/
def attemptMatchSelect (snapshot : List PresenceState) (r : ℚ) (s : HState) : HState :=
  match s.myPeerId with
  | none => s
  | some me =>
    if s.isMatchmaker || s.mainConn.isSome || !(s.status == .SEARCHING) then s
    else
      let waiters := snapshot.filter (fun u =>
        u.status == .waiting && u.peerId != me && !(s.failedPeers.contains u.peerId))
      if waiters.isEmpty then s
      else
        let target := waiters.getD (selectIndex r waiters.length) dummyPresence
        { s with isMatchmaker := true, pendingJitter := some target.peerId }

/-- The jittered dial callback of `attemptMatch` (useHumanChat.ts lines
248-282): after the 50-250 ms delay, re-validate only that we are still
SEARCHING with no primary connection (aborting silently otherwise), then
dial the remembered target as the primary connection and arm the 5 s
attempt timeout (replacing any previously armed one).  Returns the peer
actually dialed, if any. -/
def jitterFire (s : HState) : HState × Option String :=
  match s.pendingJitter with
  | none => (s, none)
  | some target =>
    let s0 := { s with pendingJitter := none }
    if !(s0.status == .SEARCHING) || s0.mainConn.isSome then
      ({ s0 with isMatchmaker := false }, none)
    else
      ( { s0 with
            mainConn := some { peer := target, isOpen := false },
            pendingTimeout := some target },
        some target )

/-- The connection-attempt timeout callback (useHumanChat.ts lines
266-274): if still SEARCHING and the current primary connection is not
open, close the attempt, drop the primary reference, add the dialed
candidate to the cooldown set and clear the in-flight guard. -/
def timeoutFire (s : HState) : HState :=
  match s.pendingTimeout with
  | none => s
  | some target =>
    let s0 := { s with pendingTimeout := none }
    if s0.status == .SEARCHING && !(jsOpen s0.mainConn) then
      { s0 with
          closedLog := target :: s0.closedLog,
          mainConn := none,
          failedPeers :=
            if s0.failedPeers.contains target then s0.failedPeers
            else target :: s0.failedPeers,
          isMatchmaker := false }
    else s0

/-- `callPeer` (useHumanChat.ts lines 694-702): no-op if an open direct
connection to the peer already exists, otherwise dial a direct-intent
connection and set it up (into the map, before it opens). -/
def callPeer (s : HState) (peerId : String) : HState :=
  if jsOpen (listGet s.directConns peerId) then s
  else setupConnection s .direct peerId

/-- A fresh hook state with a known peer id, as after `peer.on('open')`
and before any action. -/
def initState (me : String) (p : Option UserProfile) : HState :=
  { myPeerId := some me, myProfile := p, status := .IDLE, messages := [],
    partnerTyping := false, partnerRecording := false, partnerProfile := none,
    remoteVanishMode := none, partnerPeerId := none, disconnectReason := none,
    errorMsg := none, incomingDirectMessage := none, incomingReaction := none,
    incomingDirectStatus := none, friends := [], friendRequests := [],
    activeDirect := [], notification := none, mainConn := none, directConns := [],
    directProfiles := [], isMatchmaker := false, failedPeers := [],
    pendingTimeout := none, pendingJitter := none, recentPeers := [],
    publishedStatus := none, closedLog := [] }

/-- A connected session with partner "P" and one message, used to
exercise the disconnect path. -/
def c2connected : HState :=
  { initState "ME" none with
      status := .CONNECTED,
      mainConn := some { peer := "P", isOpen := true },
      partnerPeerId := some "P",
      messages := [{ id := "m1", type := .text, sender := .me, timestamp := 1 }] }

/-- Snapshot with a single waiting candidate "T". -/
def c3snap : List PresenceState :=
  [{ peerId := "T", status := .waiting, timestamp := 0 }]

/-- A searching participant "ME" with empty cooldown set. -/
def c3s0 : HState :=
  { initState "ME" none with status := .SEARCHING }

/-- Poll tick: "T" is selected and the jittered dial is scheduled. -/
def c3s1 : HState := attemptMatchSelect c3snap 0 c3s0

/-- The jitter fires: "T" is dialed, the 5 s attempt timeout is armed. -/
def c3s2 : HState := (jitterFire c3s1).1

/-- The dialed connection closes early while still SEARCHING: the guard
and the primary reference are released, but the armed timeout is not
cancelled. -/
def c3s3 : HState := connOnClose c3s2 true "T"

/-- Next poll tick: "T" is still waiting and not in the cooldown set, so
it is selected again and a new jitter is scheduled. -/
def c3s4 : HState := attemptMatchSelect c3snap 0 c3s3

/-- During the jitter window the stale timeout from the first attempt
fires: it adds "T" to the cooldown set. -/
def c3s5 : HState := timeoutFire c3s4

/-- Snapshot with a single waiting candidate "B". -/
def c5snap : List PresenceState :=
  [{ peerId := "B", status := .waiting, timestamp := 0 }]

/-- A searching participant whose cooldown set already holds "A". -/
def c5state : HState :=
  { initState "ME" none with status := .SEARCHING, failedPeers := ["A"] }

/-- A searching participant mid-attempt: dialing "T", timeout armed,
transport not yet open. -/
def c5timeoutState : HState :=
  { initState "ME" none with
      status := .SEARCHING,
      isMatchmaker := true,
      mainConn := some { peer := "T", isOpen := false },
      pendingTimeout := some "T" }

/-- A state with one open secondary connection to "A" and its cached
profile. -/
def c8state : HState :=
  { initState "ME" none with
      directConns := [("A", { peer := "A", isOpen := true })],
      directProfiles := [("A", { username := "alice" })],
      activeDirect := ["A"] }

/-- A draw of zero always selects index zero. -/
theorem selectIndex_zero (n : ℕ) : selectIndex 0 n = 0 := by
  unfold selectIndex
  rw [zero_mul]
  decide

/-- For a draw in `[0,1)` the selected index is within bounds. -/
theorem selectIndex_lt (r : ℚ) (n : ℕ) (h0 : 0 ≤ r) (h1 : r < 1) (hn : 0 < n) :
    selectIndex r n < n := by
  unfold selectIndex
  have hn' : (0:ℚ) < n := by exact_mod_cast hn
  have hfl : Int.floor (r * (n:ℚ)) < (n : ℤ) := by
    apply Int.floor_lt.mpr
    push_cast
    calc r * n < 1 * n := by exact mul_lt_mul_of_pos_right h1 hn'
    _ = n := one_mul _
  have hfl0 : (0:ℤ) ≤ Int.floor (r * (n:ℚ)) := Int.floor_nonneg.mpr (by positivity)
  omega

/-- An in-bounds read from a filtered list yields an element of the base
list satisfying the predicate. -/
theorem filter_getD_mem {α : Type} (l : List α) (p : α → Bool) (i : ℕ) (d : α)
    (h : i < (l.filter p).length) :
    (l.filter p).getD i d ∈ l ∧ p ((l.filter p).getD i d) = true := by
  have hm : (l.filter p).getD i d ∈ l.filter p := by
    rw [List.getD_eq_getElem?_getD, List.getElem?_eq_getElem h]
    simp only [Option.getD_some]
    exact List.getElem_mem h
  exact List.mem_filter.mp hm

/-- C1: an inbound connection whose metadata tags it with primary intent
(type random) is accepted and installed as the primary connection exactly
when the Session state is SEARCHING or WAITING and no primary connection
reference exists; in every other case it is closed immediately (recorded
in `closedLog`) and the Session state, primary connection reference and
partner state are left unchanged. -/
theorem c1_inbound_primary_gate (s : HState) (connPeer : String) :
    peerOnConnection s .random connPeer =
      if (s.status = .SEARCHING ∨ s.status = .WAITING) ∧ s.mainConn = none then
        { s with mainConn := some { peer := connPeer, isOpen := false } }
      else
        { s with closedLog := connPeer :: s.closedLog } := by
  unfold peerOnConnection setupConnection
  by_cases h1 : s.status = .SEARCHING <;> by_cases h2 : s.status = .WAITING <;>
    cases hm : s.mainConn <;> simp [h1, h2, hm]

/-- C2 counterexample: on a connected session, `disconnect()` leaves the
final Session state IDLE, not DISCONNECTED (the claim states the state
transitions to Disconnected). -/
theorem c2_counterexample :
    (disconnect c2connected).1.status = ChatMode.IDLE
    ∧ ChatMode.IDLE ≠ ChatMode.DISCONNECTED := by decide

/-- C2 (amended): `disconnect()` on a Connected session records reason
local_network, clears the message list and all partner state, publishes
idle and drops the primary reference; the DISCONNECTED state set by
`handleMainDisconnect` is immediately overwritten, so the final state is
IDLE. -/
theorem c2_disconnect_effects (s : HState) (h : s.status = ChatMode.CONNECTED) :
    (handleMainDisconnect s "local_network").status = ChatMode.DISCONNECTED
    ∧ (disconnect s).1.status = ChatMode.IDLE
    ∧ (disconnect s).1.disconnectReason = some "local_network"
    ∧ (disconnect s).1.messages = []
    ∧ (disconnect s).1.partnerProfile = none
    ∧ (disconnect s).1.partnerPeerId = none
    ∧ (disconnect s).1.remoteVanishMode = none
    ∧ (disconnect s).1.mainConn = none
    ∧ (disconnect s).1.publishedStatus = some "idle" := by
  unfold disconnect handleMainDisconnect
  cases s.mainConn <;> simp

/-- C2 witness: the amended disconnect behavior at the concrete connected
state. -/
theorem c2_disconnect_effects_witness :
    (handleMainDisconnect c2connected "local_network").status = ChatMode.DISCONNECTED
    ∧ (disconnect c2connected).1.status = ChatMode.IDLE
    ∧ (disconnect c2connected).1.disconnectReason = some "local_network"
    ∧ (disconnect c2connected).1.messages = []
    ∧ (disconnect c2connected).1.partnerProfile = none
    ∧ (disconnect c2connected).1.partnerPeerId = none
    ∧ (disconnect c2connected).1.remoteVanishMode = none
    ∧ (disconnect c2connected).1.mainConn = none
    ∧ (disconnect c2connected).1.publishedStatus = some "idle" :=
  c2_disconnect_effects c2connected rfl

/-- C3 (amended): at selection time the Matchmaker only schedules a dial
to a candidate that is a waiting presence record, is not itself and is
not in the cooldown set.  (The post-jitter re-validation does not re-check
the cooldown set; see the counterexample.) -/
theorem c3_selection_excludes_cooldown (s : HState) (snapshot : List PresenceState)
    (r : ℚ) (t : String) (h0 : 0 ≤ r) (h1 : r < 1)
    (hpend : s.pendingJitter = none)
    (hsel : (attemptMatchSelect snapshot r s).pendingJitter = some t) :
    t ∉ s.failedPeers ∧ s.myPeerId ≠ some t
    ∧ ∃ u ∈ snapshot, u.peerId = t ∧ u.status = PresenceStatus.waiting := by
  unfold attemptMatchSelect at hsel
  split at hsel
  · simp [hpend] at hsel
  · next me hme =>
    split at hsel
    · simp [hpend] at hsel
    · next hguard =>
      by_cases hemp : (snapshot.filter (fun u =>
          u.status == .waiting && u.peerId != me
            && !(s.failedPeers.contains u.peerId))).isEmpty
      · rw [if_pos hemp] at hsel
        simp [hpend] at hsel
      · rw [if_neg hemp] at hsel
        simp only [Option.some.injEq] at hsel
        have hlen : 0 < (snapshot.filter (fun u =>
            u.status == PresenceStatus.waiting && u.peerId != me
              && !(s.failedPeers.contains u.peerId))).length := by
          rcases hwv : snapshot.filter (fun u =>
            u.status == PresenceStatus.waiting && u.peerId != me
              && !(s.failedPeers.contains u.peerId)) with _ | ⟨a, l⟩
          · rw [hwv] at hemp; simp at hemp
          · rw [hwv]; simp
        obtain ⟨husnap, hpred⟩ := filter_getD_mem snapshot _ _ dummyPresence
          (selectIndex_lt r _ h0 h1 hlen)
        generalize hu : (snapshot.filter (fun u =>
            u.status == PresenceStatus.waiting && u.peerId != me
              && !(s.failedPeers.contains u.peerId))).getD
          (selectIndex r (snapshot.filter (fun u =>
            u.status == PresenceStatus.waiting && u.peerId != me
              && !(s.failedPeers.contains u.peerId))).length) dummyPresence = u0
          at hsel husnap hpred
        simp only [Bool.and_eq_true, beq_iff_eq, bne_iff_ne, Bool.not_eq_true] at hpred
        obtain ⟨⟨hwait, hnotme⟩, hcool⟩ := hpred
        refine ⟨?_, ?_, ⟨u0, husnap, hsel, hwait⟩⟩
        · rw [← hsel]
          intro hmemf
          simp [hmemf] at hcool
        · rw [hme]
          intro hh
          have hh2 : me = t := by injection hh
          exact hnotme (hsel.trans hh2.symm)

/-- C3 witness: the selection-time exclusion at a concrete searching
state with waiter "T". -/
theorem c3_selection_excludes_cooldown_witness :
    "T" ∉ c3s0.failedPeers ∧ c3s0.myPeerId ≠ some "T"
    ∧ ∃ u ∈ c3snap, u.peerId = "T" ∧ u.status = PresenceStatus.waiting := by
  apply c3_selection_excludes_cooldown c3s0 c3snap 0 "T" (le_refl 0) zero_lt_one
  · decide
  · show c3s1.pendingJitter = some "T"
    simp +decide [c3s1, attemptMatchSelect, c3s0, c3snap, initState, selectIndex_zero,
      dummyPresence]

/-- C3 counterexample: after dialing "T", having the connection close
early while SEARCHING (which releases the guard but not the armed
timeout), re-selecting "T" and having the stale timeout fire during the
jitter window (adding "T" to the cooldown set), the jitter callback still
dials "T" even though "T" is now in the cooldown set — the post-jitter
re-validation checks only the Session state and the primary reference. -/
theorem c3_counterexample :
    (jitterFire c3s5).2 = some "T" ∧ "T" ∈ c3s5.failedPeers := by
  simp +decide [c3s5, c3s4, c3s3, c3s2, c3s1, c3s0, c3snap, initState,
    attemptMatchSelect, jitterFire, connOnClose, timeoutFire, selectIndex_zero,
    dummyPresence, handleMainDisconnect]

/-- C4 (amended): an inbound message frame on the primary connection
carrying an explicit non-empty id is appended with exactly that id, and a
seen frame acknowledging that id is immediately sent back on the same
connection.  (An explicit empty-string id is falsy in JS and falls back
to a receive-time id with no acknowledgment; see the counterexample.) -/
theorem c4_id_roundtrip_and_seen (s : HState) (connPeer pl : String)
    (dt : Option MessageType) (i : String) (rt : Option ReplyInfo) (ed : Option Nat)
    (iv : Option Bool) (now : Nat) (hi : i ≠ "") :
    (((connOnData s true connPeer
        { type := .message, payload := some (.str pl), dataType := dt, id := some i,
          replyTo := rt, expiryDuration := ed, isVanish := iv } now).1).messages.map Message.id
      = s.messages.map Message.id ++ [i])
    ∧ (connOnData s true connPeer
        { type := .message, payload := some (.str pl), dataType := dt, id := some i,
          replyTo := rt, expiryDuration := ed, isVanish := iv } now).2
      = [{ type := FrameType.seen, messageId := some i }] := by
  unfold connOnData
  simp [jsOrStr, jsTruthyStr, hi]

/-- C4 witness: the amended id round-trip at a concrete frame. -/
theorem c4_id_roundtrip_and_seen_witness :
    (((connOnData (initState "ME" none) true "P"
        { type := .message, payload := some (.str "hi"), dataType := some .text,
          id := some "m1" } 7).1).messages.map Message.id = ["m1"])
    ∧ (connOnData (initState "ME" none) true "P"
        { type := .message, payload := some (.str "hi"), dataType := some .text,
          id := some "m1" } 7).2
      = [{ type := FrameType.seen, messageId := some "m1" }] := by
  have h := c4_id_roundtrip_and_seen (initState "ME" none) "P" "hi" (some .text) "m1"
    none none none 7 (by decide)
  simpa [initState] using h

/-- C4 counterexample: a message frame carrying the explicit id "" is
delivered with the receive-time fallback id "5" (not ""), and no seen
frame is sent back. -/
theorem c4_counterexample :
    (((connOnData (initState "ME" none) true "P"
        { type := .message, payload := some (.str "hi"), dataType := some .text,
          id := some "" } 5).1).messages.map Message.id = ["5"])
    ∧ ("5" : String) ≠ ""
    ∧ (connOnData (initState "ME" none) true "P"
        { type := .message, payload := some (.str "hi"), dataType := some .text,
          id := some "" } 5).2 = [] := by decide

/-- C5 (amended): when the attempt timeout fires while the Session is
still SEARCHING and the primary connection has not confirmed open, the
attempt is closed, the primary reference cleared, the candidate added to
the cooldown set and the in-flight guard cleared; the cooldown set is
emptied on every primary-connection open (there is no periodic clearing;
see the counterexample). -/
theorem c5_timeout_and_cooldown_clear (s s2 : HState) (t connPeer : String)
    (hp : s.pendingTimeout = some t) (hs : s.status = ChatMode.SEARCHING)
    (ho : jsOpen s.mainConn = false) :
    (timeoutFire s).mainConn = none
    ∧ t ∈ (timeoutFire s).failedPeers
    ∧ (timeoutFire s).isMatchmaker = false
    ∧ t ∈ (timeoutFire s).closedLog
    ∧ (timeoutFire s).pendingTimeout = none
    ∧ (connOnOpen s2 true connPeer).1.failedPeers = []
    ∧ (connOnOpen s2 true connPeer).1.pendingTimeout = none := by
  have hopen1 : (connOnOpen s2 true connPeer).1.failedPeers = [] := by
    unfold connOnOpen
    cases s2.myProfile <;> simp
  have hopen2 : (connOnOpen s2 true connPeer).1.pendingTimeout = none := by
    unfold connOnOpen
    cases s2.myProfile <;> simp
  have hmem : t ∈ (if t ∈ s.failedPeers then s.failedPeers else t :: s.failedPeers) := by
    by_cases hc : t ∈ s.failedPeers
    · rw [if_pos hc]
      exact hc
    · rw [if_neg hc]
      exact List.mem_cons_self t s.failedPeers
  unfold timeoutFire
  rw [hp]
  simp [hs, ho, hopen1, hopen2, hmem]

/-- C5 witness: the amended timeout behavior at a concrete mid-attempt
state. -/
theorem c5_timeout_and_cooldown_clear_witness :
    (timeoutFire c5timeoutState).mainConn = none
    ∧ "T" ∈ (timeoutFire c5timeoutState).failedPeers
    ∧ (timeoutFire c5timeoutState).isMatchmaker = false
    ∧ "T" ∈ (timeoutFire c5timeoutState).closedLog
    ∧ (timeoutFire c5timeoutState).pendingTimeout = none
    ∧ (connOnOpen (initState "ME" none) true "Q").1.failedPeers = []
    ∧ (connOnOpen (initState "ME" none) true "Q").1.pendingTimeout = none :=
  c5_timeout_and_cooldown_clear c5timeoutState (initState "ME" none) "T" "Q"
    rfl rfl rfl

/-- C5 counterexample: the periodic callbacks (the 1 s matchmaking poll
and its jitter / timeout continuations) never empty a non-empty cooldown
set — only a successful primary open does — so the cooldown set is not
"emptied periodically". -/
theorem c5_counterexample :
    (attemptMatchSelect c5snap 0 c5state).failedPeers = ["A"]
    ∧ (jitterFire c5state).1.failedPeers = ["A"]
    ∧ (timeoutFire c5state).failedPeers = ["A"]
    ∧ (["A"] : List String) ≠ ([] : List String) := by
  refine ⟨?_, by decide, by decide, by decide⟩
  simp +decide [attemptMatchSelect, c5state, c5snap, initState, selectIndex_zero,
    dummyPresence]

/-- C6: the Matchmaker's selection `Math.floor(Math.random() * n)` is
uniform over a filtered set of n waiters: for a uniform draw r in [0,1),
index i is selected exactly when r lies in the interval
[i/n, (i+1)/n), and every such interval has the same length 1/n, so each
of the n waiters is chosen with probability 1/n (in particular the
choice is position-uniform, not oldest-first). -/
theorem c6_uniform_selection (r : ℚ) (n i : ℕ) (h0 : 0 ≤ r) (h1 : r < 1)
    (hi : i < n) :
    (selectIndex r n = i ↔ ((i : ℚ) / n ≤ r ∧ r < ((i : ℚ) + 1) / n))
    ∧ ((i : ℚ) + 1) / n - (i : ℚ) / n = 1 / n := by
  have hn : 0 < n := Nat.lt_of_le_of_lt (Nat.zero_le i) hi
  have hn' : (0:ℚ) < n := by exact_mod_cast hn
  constructor
  · have hfl0 : (0:ℤ) ≤ Int.floor (r * (n:ℚ)) := Int.floor_nonneg.mpr (by positivity)
    have key : selectIndex r n = i ↔ Int.floor (r * (n:ℚ)) = (i : ℤ) := by
      unfold selectIndex
      omega
    rw [key, Int.floor_eq_iff]
    push_cast
    rw [div_le_iff₀ hn', lt_div_iff₀ hn']
  · rw [div_sub_div_same]
    norm_num

/-- C6 witness: with draw 1/2 and two waiters, index 1 is selected and
1/2 lies in its interval. -/
theorem c6_uniform_selection_witness : selectIndex (1/2 : ℚ) 2 = 1 :=
  ((c6_uniform_selection (1/2) 2 1 (by norm_num) (by norm_num) (by norm_num)).1).mpr
    (by norm_num)

/-- C7 (amended): neither an inbound message frame on the primary
connection nor a local send checks the new Message id against the
conversation: both append exactly one Message unconditionally, so a
colliding id is appended as a duplicate rather than rejected. -/
theorem c7_append_unconditional (s : HState) (connPeer text : String)
    (pl : Option PVal) (dt : Option MessageType) (i : Option String)
    (rt : Option ReplyInfo) (ed : Option Nat) (iv : Option Bool) (now : Nat) :
    (∃ m, ((connOnData s true connPeer
        { type := .message, payload := pl, dataType := dt, id := i, replyTo := rt,
          expiryDuration := ed, isVanish := iv } now).1).messages = s.messages ++ [m])
    ∧ (∃ m, ((sendMessage s text rt iv now).1).messages = s.messages ++ [m]) := by
  constructor
  · exact ⟨_, rfl⟩
  · unfold sendMessage
    by_cases hop : jsOpen s.mainConn = true
    · rw [if_pos hop]
      exact ⟨_, rfl⟩
    · rw [if_neg hop]
      exact ⟨_, rfl⟩

/-- C7 counterexample: delivering two message frames with the same
explicit id "x" on the primary connection yields a conversation holding
the id "x" twice — the collision is not rejected. -/
theorem c7_counterexample :
    (((connOnData ((connOnData (initState "ME" none) true "P"
        { type := .message, payload := some (.str "a"), dataType := some .text,
          id := some "x" } 1).1) true "P"
        { type := .message, payload := some (.str "b"), dataType := some .text,
          id := some "x" } 2).1).messages.map Message.id) = ["x", "x"] := by decide

/-- Keys of a JS-style map set: replacing preserves the key list,
inserting appends a fresh key, so key uniqueness is preserved. -/
theorem listSet_keys_nodup {α : Type} (l : List (String × α)) (k : String) (v : α)
    (h : (l.map Prod.fst).Nodup) : ((listSet l k v).map Prod.fst).Nodup := by
  unfold listSet
  by_cases hany : l.any (fun p => p.1 == k) = true
  · rw [if_pos hany]
    have hkeys : (l.map (fun p => if p.1 == k then (k, v) else p)).map Prod.fst
        = l.map Prod.fst := by
      rw [List.map_map]
      apply List.map_congr_left
      intro a _
      by_cases hk : a.1 = k
      · simp [hk]
      · simp [hk]
    rw [hkeys]
    exact h
  · rw [if_neg hany]
    rw [List.map_append]
    simp only [List.map_cons, List.map_nil]
    rw [List.nodup_append]
    refine ⟨h, List.nodup_singleton k, ?_⟩
    intro a ha hb
    simp only [List.mem_singleton] at hb
    subst hb
    obtain ⟨p, hp, hpk⟩ := List.mem_map.mp ha
    exact hany (List.any_eq_true.mpr ⟨p, hp, by simp [hpk]⟩)

/-- Keys of a JS-style map delete: a sublist of the original keys, so
key uniqueness is preserved. -/
theorem listDel_keys_nodup {α : Type} (l : List (String × α)) (k : String)
    (h : (l.map Prod.fst).Nodup) : ((listDel l k).map Prod.fst).Nodup := by
  have hsub : List.Sublist ((listDel l k).map Prod.fst) (l.map Prod.fst) :=
    List.Sublist.map Prod.fst (List.filter_sublist l)
  exact List.Nodup.sublist hsub h

/-- Deleting a key makes lookups of that key fail. -/
theorem listGet_listDel_self {α : Type} (l : List (String × α)) (k : String) :
    listGet (listDel l k) k = none := by
  unfold listGet listDel
  rw [List.find?_eq_none.mpr]
  · rfl
  · intro p hp
    have := List.of_mem_filter hp
    simpa using this

/-- C8 (amended): each key of the secondary-connection map appears at
most once (inserting and removing preserve key uniqueness), and on close
of a secondary connection its map entry and cached partner profile are
removed.  (An entry may however exist before its transport is open: it is
inserted at connection setup, not at open; see the counterexample.) -/
theorem c8_secondary_map_keys (s : HState) (p : String)
    (hc : (s.directConns.map Prod.fst).Nodup)
    (hp : (s.directProfiles.map Prod.fst).Nodup) :
    ((setupConnection s .direct p).directConns.map Prod.fst).Nodup
    ∧ ((connOnClose s false p).directConns.map Prod.fst).Nodup
    ∧ ((connOnClose s false p).directProfiles.map Prod.fst).Nodup
    ∧ listGet (connOnClose s false p).directConns p = none
    ∧ listGet (connOnClose s false p).directProfiles p = none := by
  unfold setupConnection connOnClose
  refine ⟨?_, ?_, ?_, ?_, ?_⟩
  · exact listSet_keys_nodup s.directConns p { peer := p, isOpen := false } hc
  · exact listDel_keys_nodup s.directConns p hc
  · exact listDel_keys_nodup s.directProfiles p hp
  · exact listGet_listDel_self s.directConns p
  · exact listGet_listDel_self s.directProfiles p

/-- C8 witness: the amended map invariants at a concrete state with one
open secondary connection. -/
theorem c8_secondary_map_keys_witness :
    ((setupConnection c8state .direct "B").directConns.map Prod.fst).Nodup
    ∧ ((connOnClose c8state false "B").directConns.map Prod.fst).Nodup
    ∧ ((connOnClose c8state false "B").directProfiles.map Prod.fst).Nodup
    ∧ listGet (connOnClose c8state false "B").directConns "B" = none
    ∧ listGet (connOnClose c8state false "B").directProfiles "B" = none :=
  c8_secondary_map_keys c8state "B" (by decide) (by decide)

/-- C8 counterexample: `callPeer` inserts the dialed secondary connection
into the map immediately, before its transport has opened, so a map entry
whose handle is not open exists — the claim that every entry maps to an
open transport fails. -/
theorem c8_counterexample :
    listGet (callPeer (initState "ME" none) "B").directConns "B"
      = some { peer := "B", isOpen := false }
    ∧ ({ peer := "B", isOpen := false } : Conn).isOpen = false := by decide

/-- C9: every sendMessage / sendImage / sendAudio call appends the new
Message (sender me, delivery status sent) to the local conversation
unconditionally, and emits the wire frame exactly when the primary
connection exists and is open — a send while disconnected changes local
state but transmits nothing. -/
theorem c9_send_appends_locally (s : HState) (text b64i b64a : String)
    (rt : Option ReplyInfo) (iv : Option Bool) (ed : Option Nat) (now : Nat) :
    ((sendMessage s text rt iv now).1.messages
        = s.messages ++
            [{ id := Nat.repr now, text := some text, sender := .me, timestamp := now,
               type := .text, reactions := some [], status := some .sent, replyTo := rt,
               isVanish := iv }]
      ∧ (sendMessage s text rt iv now).2
        = if jsOpen s.mainConn then
            [{ type := .message, payload := some (.str text), dataType := some .text,
               id := some (Nat.repr now), replyTo := rt, isVanish := iv }]
          else [])
    ∧ ((sendImage s b64i ed iv now).1.messages
        = s.messages ++
            [{ id := Nat.repr now, fileData := some b64i, sender := .me, timestamp := now,
               type := .image, reactions := some [], status := some .sent,
               expiryDuration := ed,
               expiresAt := if jsTruthyNat ed then some (now + ed.getD 0) else none,
               isVanish := iv }]
      ∧ (sendImage s b64i ed iv now).2
        = if jsOpen s.mainConn then
            [{ type := .message, payload := some (.str b64i), dataType := some .image,
               id := some (Nat.repr now), expiryDuration := ed, isVanish := iv }]
          else [])
    ∧ ((sendAudio s b64a iv now).1.messages
        = s.messages ++
            [{ id := Nat.repr now, fileData := some b64a, sender := .me, timestamp := now,
               type := .audio, reactions := some [], status := some .sent,
               isVanish := iv }]
      ∧ (sendAudio s b64a iv now).2
        = if jsOpen s.mainConn then
            [{ type := .message, payload := some (.str b64a), dataType := some .audio,
               id := some (Nat.repr now), isVanish := iv }]
          else []) := by
  unfold sendMessage sendImage sendAudio
  by_cases hop : jsOpen s.mainConn = true
  · simp [hop]
  · simp [hop]

/-- C10: an inbound message frame on the primary connection carrying no
id is still delivered — appended with the locally generated receive-time
id — and no seen acknowledgment frame is sent back for it. -/
theorem c10_message_without_id (s : HState) (connPeer : String) (pl : Option PVal)
    (dt : Option MessageType) (rt : Option ReplyInfo) (ed : Option Nat)
    (iv : Option Bool) (now : Nat) :
    (((connOnData s true connPeer
        { type := .message, payload := pl, dataType := dt, id := none, replyTo := rt,
          expiryDuration := ed, isVanish := iv } now).1).messages.map Message.id
      = s.messages.map Message.id ++ [Nat.repr now])
    ∧ (connOnData s true connPeer
        { type := .message, payload := pl, dataType := dt, id := none, replyTo := rt,
          expiryDuration := ed, isVanish := iv } now).2 = [] := by
  unfold connOnData
  simp [jsOrStr, jsTruthyStr]
